import Mathlib

/-!
Verification of the bulk-fetch orchestrator in src/efinance/stock/getter.py.

The embedding models the tabular payloads (pandas DataFrames) as column
lists plus row lists of string cells, the network fetch capability as an
oracle mapping a stock code and an attempt index to a provider response,
and the concurrent batch runner get_quote_history_multi as a left fold
over the submitted codes.  Each spawned worker runs the body of the inner
function named start in the source: one call to get_quote_history_single,
then the dict assignment, then the progress-bar update.  The decorator
stack in the source is modelled exactly: retry(tries) wraps the
multitasking.task spawn wrapper, and the spawn itself never raises.
-/

/-- Tabular payload: a DataFrame is a list of column names and a list of
rows of string cells. -/
structure DataFrame where
  columns : List String
  rows : List (List String)
deriving DecidableEq

/-- Modelled from the spec: the field-name table EastmoneyKlines lives in
the config module, which is not part of the provided sources.  The spec
treats the concrete names as mechanical glue; what matters is that the
list is a fixed set of provider kline field labels.  The source itself
forces the stock-code and stock-name labels to be absent from this list,
because get_quote_history_single inserts the columns 股票代码 and 股票名称
with df.insert, which fails on a duplicate column name. -/
def klineColumns : List String :=
  ["日期", "开盘", "收盘", "最高", "最低", "成交量", "成交额", "振幅"]

/-- Modelled from the spec: the field-name table EastmoneyBills lives in
the config module, which is not part of the provided sources; modelled as
a fixed list of provider bill field labels. -/
def billColumns : List String :=
  ["日期", "主力净流入", "小单净流入", "中单净流入", "大单净流入", "超大单净流入"]

/-- Column labels written literally in get_today_bill in the source. -/
def todayBillColumns : List String :=
  ["时间", "主力净流入", "小单净流入", "中单净流入", "大单净流入", "超大单净流入"]

/-- Outcome of one HTTP fetch of the kline endpoint, as seen by
get_quote_history_single after requests.get(...).json(): either the data
field is present (stock name plus comma-separated kline strings), or the
data field is null (the provider reports no data), or the call raises a
transient exception (network failure, timeout, malformed response). -/
inductive FetchResult where
  | ok (stock_name : String) (klines : List String)
  | noData
  | raise (e : String)
deriving DecidableEq

/-- True exactly when the fetch produced a data payload. -/
def FetchResult.isSuccess : FetchResult → Bool
  | FetchResult.ok _ _ => true
  | FetchResult.noData => false
  | FetchResult.raise _ => false

/-- The fetch oracle: for a stock code and an attempt index, the outcome
the provider would give on that attempt. -/
abbrev FetchFn : Type := String → Nat → FetchResult

/-- Splitting a comma-separated kline string into cells, the semantics of
the str.split call in the source. -/
def splitCommaAux : List Char → List Char → List (List Char)
  | [], acc => [acc.reverse]
  | c :: cs, acc =>
      if c = ',' then acc.reverse :: splitCommaAux cs [] else splitCommaAux cs (c :: acc)

/-- String form of the comma splitter. -/
def splitComma (s : String) : List String :=
  (splitCommaAux s.data []).map List.asString

/-- Embedding of get_quote_history_single (getter.py lines 148 to 206)
applied to the provider response.  When the data field is null the
function returns an empty DataFrame carrying only the kline columns; on a
payload it splits each kline on commas and inserts the stock code column
and then the stock name column at position 0; a raised exception
propagates to the caller. -/
def get_quote_history_single (stock_code : String) (resp : FetchResult) :
    Except String DataFrame :=
  match resp with
  | FetchResult.raise e => Except.error e
  | FetchResult.noData => Except.ok { columns := klineColumns, rows := [] }
  | FetchResult.ok stock_name klines =>
      Except.ok
        { columns := "股票名称" :: "股票代码" :: klineColumns
          rows := (klines.map splitComma).map (fun r => stock_name :: stock_code :: r) }

/-- The empty placeholder DataFrame recorded when the provider reports no
data for a key. -/
def placeholderDF : DataFrame :=
  { columns := klineColumns, rows := [] }

/-- The success payload for a stock code given the provider name and
kline strings. -/
def successDF (stock_code stock_name : String) (klines : List String) : DataFrame :=
  { columns := "股票名称" :: "股票代码" :: klineColumns
    rows := (klines.map splitComma).map (fun r => stock_name :: stock_code :: r) }

/-- Observable events of one worker: the dict assignment into the result
map (record) and the progress-bar update (advance). -/
inductive Event where
  | record (code : String)
  | advance (code : String)
deriving DecidableEq

/-- What one spawned worker did: how many fetch attempts it performed,
the entry it stored into the result dict (none when the worker thread
died on an exception before the assignment), and its event trace. -/
structure TaskOutcome where
  fetchAttempts : Nat
  result : Option DataFrame
  events : List Event
deriving DecidableEq

/-- Body of the worker thread spawned per stock code, the undecorated
inner function start of get_quote_history_multi (getter.py lines 244 to
249): one call to get_quote_history_single, then the assignment
dfs[stock_code] = _df, then pbar.update(1).  An exception raised by the
fetch kills the thread before the assignment, so neither the record nor
the advance event happens. -/
def runTaskBody (fetch : FetchFn) (code : String) : TaskOutcome :=
  match get_quote_history_single code (fetch code 0) with
  | Except.error _ => { fetchAttempts := 1, result := none, events := [] }
  | Except.ok df =>
      { fetchAttempts := 1
        result := some df
        events := [Event.record code, Event.advance code] }

/-- Core loop of the retry decorator from the retry package: run the
operation; on an exception reattempt, with the total number of calls
capped at the fuel.  Returns the final outcome and the number of calls
made. -/
def withRetryGo {α : Type} (op : Nat → Except String α) :
    Nat → Nat → Except String α × Nat
  | 0, n => (Except.error "retry: zero attempts", n)
  | t + 1, n =>
      match op n with
      | Except.ok a => (Except.ok a, n + 1)
      | Except.error e =>
          if t = 0 then (Except.error e, n + 1) else withRetryGo op t (n + 1)

/-- The retry decorator with a given total attempt budget. -/
def withRetry {α : Type} (tries : Nat) (op : Nat → Except String α) :
    Except String α × Nat :=
  withRetryGo op tries 0

/-- The multitasking.task spawn wrapper: spawning a worker thread never
raises in the caller; the outcome of the thread body is returned to the
model as the value of the spawned task. -/
def spawnTask (o : TaskOutcome) : Except String TaskOutcome :=
  Except.ok o

/-- The decorated start function of the source: the decorator stack is
retry(tries=tries) applied over multitasking.task applied over the body,
so the retry wrapper guards only the spawn. -/
def start (fetch : FetchFn) (tries : Nat) (code : String) :
    Except String TaskOutcome × Nat :=
  withRetry tries (fun _ => spawnTask (runTaskBody fetch code))

/-- Python dict assignment dfs[k] = v: replace the value in place when
the key is present, append otherwise. -/
def dictInsert : List (String × DataFrame) → String → DataFrame →
    List (String × DataFrame)
  | [], k, v => [(k, v)]
  | (k2, v2) :: m, k, v =>
      if k2 = k then (k2, v) :: m else (k2, v2) :: dictInsert m k v

/-- Python dict lookup dfs.get(k). -/
def dictLookup : List (String × DataFrame) → String → Option DataFrame
  | [], _ => none
  | (k2, v2) :: m, k => if k2 = k then some v2 else dictLookup m k

/-- State of one batch call: the result dict, the total number of fetch
attempts made, the progress-bar count and last label, the event trace,
the number of spawned worker threads, and the number of calls to the
collaborator update_local_market_stocks_info. -/
structure BatchState where
  dfs : List (String × DataFrame)
  fetchCalls : Nat
  completedCount : Nat
  lastLabel : Option String
  events : List Event
  spawns : Nat
  marketInfoUpdates : Nat
deriving DecidableEq

/-- Dict update performed by a finished worker. -/
def recordResult (dfs : List (String × DataFrame)) (code : String) :
    Option DataFrame → List (String × DataFrame)
  | some df => dictInsert dfs code df
  | none => dfs

/-- Progress increment performed by a finished worker. -/
def countOne : Option DataFrame → Nat
  | some _ => 1
  | none => 0

/-- Progress label update performed by a finished worker. -/
def updateLabel (old : Option String) (code : String) :
    Option DataFrame → Option String
  | some _ => some code
  | none => old

/-- Effect of one completed worker on the batch state. -/
def applyOutcome (st : BatchState) (code : String) (o : TaskOutcome) : BatchState :=
  { dfs := recordResult st.dfs code o.result
    fetchCalls := st.fetchCalls + o.fetchAttempts
    completedCount := st.completedCount + countOne o.result
    lastLabel := updateLabel st.lastLabel code o.result
    events := st.events ++ o.events
    spawns := st.spawns + 1
    marketInfoUpdates := st.marketInfoUpdates }

/-- One iteration of the dispatch loop of get_quote_history_multi: call
the decorated start on the code; when the spawn succeeded, fold the
worker outcome into the batch state. -/
def stepTask (fetch : FetchFn) (tries : Nat) (st : BatchState) (code : String) :
    BatchState :=
  match start fetch tries code with
  | (Except.ok o, _) => applyOutcome st code o
  | (Except.error _, _) => st

/-- Initial batch state: empty dict, and one call to the collaborator
update_local_market_stocks_info exactly when the code list is nonempty
(the guard total != 0 at getter.py lines 239 to 240). -/
def initBatch (codes : List String) : BatchState :=
  { dfs := []
    fetchCalls := 0
    completedCount := 0
    lastLabel := none
    events := []
    spawns := 0
    marketInfoUpdates := if codes.isEmpty then 0 else 1 }

/-- Embedding of get_quote_history_multi (getter.py lines 209 to 256):
dispatch one task per stock code, wait for all of them, and return the
aggregated state.  The fold order is the chosen linearization of the
concurrent completion order. -/
def get_quote_history_multi (fetch : FetchFn) (tries : Nat)
    (stock_codes : List String) : BatchState :=
  stock_codes.foldl (stepTask fetch tries) (initBatch stock_codes)

/-- Modelled from the spec: the Cancellation Controller is the SIGINT
handler installed at getter.py line 18, which delegates to
multitasking.killall; the multitasking library is not part of the
provided sources.  Per the spec, cancellation after M completed tasks
abruptly stops the remaining work, and the map returned is the partial
snapshot of the completed tasks: modelled as the batch run truncated at
the cancellation point. -/
def runBatchCancelled (fetch : FetchFn) (tries : Nat)
    (stock_codes : List String) (M : Nat) : BatchState :=
  get_quote_history_multi fetch tries (stock_codes.take M)

/-- Argument shape accepted by the dispatching entry point
get_quote_history: a single string, an iterable of strings, or anything
else. -/
inductive StockCodesArg where
  | str (s : String)
  | iterable (l : List String)
  | other
deriving DecidableEq

/-- Result payload of the dispatching entry point. -/
inductive QuoteResult where
  | single (df : DataFrame)
  | multi (dfs : List (String × DataFrame))
deriving DecidableEq

/-- Observable outcome of one call to the dispatching entry point:
the returned value or raised error, the number of fetch calls performed,
and the number of worker threads spawned. -/
structure CallResult where
  result : Except String QuoteResult
  fetchCalls : Nat
  spawns : Nat

/-- The TypeError message raised by get_quote_history on a malformed
argument (getter.py lines 142 to 145). -/
def typeErrorMsg : String := "股票代码类型数据输入不正确！"

/-- Embedding of get_quote_history (getter.py lines 101 to 145): a string
argument goes to the single fetch, an iterable goes to the batch runner,
and anything else raises TypeError immediately, before any fetch call or
task spawn. -/
def get_quote_history (fetch : FetchFn) (tries : Nat) (arg : StockCodesArg) :
    CallResult :=
  match arg with
  | StockCodesArg.str s =>
      match get_quote_history_single s (fetch s 0) with
      | Except.ok df => { result := Except.ok (QuoteResult.single df), fetchCalls := 1, spawns := 0 }
      | Except.error e => { result := Except.error e, fetchCalls := 1, spawns := 0 }
  | StockCodesArg.iterable l =>
      let b := get_quote_history_multi fetch tries l
      { result := Except.ok (QuoteResult.multi b.dfs)
        fetchCalls := b.fetchCalls
        spawns := b.spawns }
  | StockCodesArg.other =>
      { result := Except.error typeErrorMsg, fetchCalls := 0, spawns := 0 }

/-- Response of the bill endpoints as seen after requests.get(...).json():
the data field is either null or a list of comma-separated kline strings. -/
inductive BillResp where
  | null
  | ok (klines : List String)
deriving DecidableEq

/-- The TypeError message produced by subscripting None in Python. -/
def noneSubscriptMsg : String := "TypeError: NoneType object is not subscriptable"

/-- Embedding of get_history_bill (getter.py lines 298 to 335): a null
data field yields an empty DataFrame with the bill columns; otherwise the
klines are split into rows.  No stock-code column is inserted. -/
def get_history_bill (resp : BillResp) : DataFrame :=
  match resp with
  | BillResp.null => { columns := billColumns, rows := [] }
  | BillResp.ok klines => { columns := billColumns, rows := klines.map splitComma }

/-- Embedding of get_today_bill (getter.py lines 338 to 369): the data
field is read with json_response['data'] and subscripted unconditionally,
so a null data field raises TypeError to the caller; otherwise the rows
are split and the stock-code column is inserted at position 0. -/
def get_today_bill (stock_code : String) (resp : BillResp) :
    Except String DataFrame :=
  match resp with
  | BillResp.null => Except.error noneSubscriptMsg
  | BillResp.ok klines =>
      Except.ok
        { columns := "股票代码" :: todayBillColumns
          rows := (klines.map splitComma).map (fun r => stock_code :: r) }

/-- A DataFrame payload carries a key the way success payloads do in the
source: it has the stock-code column and the key appears in every row. -/
def carriesKey (df : DataFrame) (key : String) : Prop :=
  "股票代码" ∈ df.columns ∧ ∀ r ∈ df.rows, key ∈ r

instance (df : DataFrame) (key : String) : Decidable (carriesKey df key) := by
  unfold carriesKey
  infer_instance

/-- A trace is well ordered when every progress-bar advance for a key is
preceded by the dict record for that key. -/
def goodTrace (es : List Event) : Prop :=
  ∀ (i : Nat) (k : String), es[i]? = some (Event.advance k) →
    ∃ j : Nat, j < i ∧ es[j]? = some (Event.record k)

/-! ### Association-list lemmas for the result dict -/

theorem dictInsert_fresh (m : List (String × DataFrame)) (k : String) (v : DataFrame)
    (h : k ∉ m.map Prod.fst) : dictInsert m k v = m ++ [(k, v)] := by
  induction m with
  | nil => rfl
  | cons p m ih =>
    obtain ⟨k2, v2⟩ := p
    simp only [List.map_cons, List.mem_cons] at h
    push_neg at h
    simp only [dictInsert]
    rw [if_neg (fun e => h.1 e.symm), ih h.2]
    rfl

theorem dictLookup_insert_self (m : List (String × DataFrame)) (k : String)
    (v : DataFrame) : dictLookup (dictInsert m k v) k = some v := by
  induction m with
  | nil => simp [dictInsert, dictLookup]
  | cons p m ih =>
    obtain ⟨k2, v2⟩ := p
    by_cases hk : k2 = k
    · simp [dictInsert, dictLookup, hk]
    · simp [dictInsert, dictLookup, hk, ih]

theorem dictLookup_insert_ne (m : List (String × DataFrame)) (k c : String)
    (v : DataFrame) (h : c ≠ k) :
    dictLookup (dictInsert m k v) c = dictLookup m c := by
  induction m with
  | nil => simp [dictInsert, dictLookup, Ne.symm h]
  | cons p m ih =>
    obtain ⟨k2, v2⟩ := p
    by_cases hk : k2 = k
    · subst hk
      simp [dictInsert, dictLookup, Ne.symm h]
    · simp [dictInsert, dictLookup, hk, ih]

theorem dictLookup_not_mem (m : List (String × DataFrame)) (k : String)
    (h : k ∉ m.map Prod.fst) : dictLookup m k = none := by
  induction m with
  | nil => rfl
  | cons p m ih =>
    obtain ⟨k2, v2⟩ := p
    simp only [List.map_cons, List.mem_cons] at h
    push_neg at h
    simp [dictLookup, Ne.symm h.1, ih h.2]

/-! ### Worker-body lemmas -/

theorem runTaskBody_attempts (fetch : FetchFn) (code : String) :
    (runTaskBody fetch code).fetchAttempts = 1 := by
  cases h : get_quote_history_single code (fetch code 0) <;>
    simp [runTaskBody, h]

theorem runTaskBody_raise (fetch : FetchFn) (code : String) (e : String)
    (h : fetch code 0 = FetchResult.raise e) :
    runTaskBody fetch code = { fetchAttempts := 1, result := none, events := [] } := by
  simp [runTaskBody, get_quote_history_single, h]

theorem runTaskBody_noData (fetch : FetchFn) (code : String)
    (h : fetch code 0 = FetchResult.noData) :
    runTaskBody fetch code =
      { fetchAttempts := 1
        result := some placeholderDF
        events := [Event.record code, Event.advance code] } := by
  simp [runTaskBody, get_quote_history_single, h, placeholderDF]

theorem runTaskBody_ok (fetch : FetchFn) (code stock_name : String)
    (klines : List String) (h : fetch code 0 = FetchResult.ok stock_name klines) :
    runTaskBody fetch code =
      { fetchAttempts := 1
        result := some (successDF code stock_name klines)
        events := [Event.record code, Event.advance code] } := by
  simp [runTaskBody, get_quote_history_single, h, successDF]

theorem runTaskBody_isSome_of_isSuccess (fetch : FetchFn) (code : String)
    (h : (fetch code 0).isSuccess = true) :
    ((runTaskBody fetch code).result).isSome = true := by
  cases hf : fetch code 0 with
  | ok n kl => simp [runTaskBody_ok fetch code n kl hf]
  | noData => rw [hf] at h; simp [FetchResult.isSuccess] at h
  | raise e => rw [hf] at h; simp [FetchResult.isSuccess] at h

theorem runTaskBody_events_cases (fetch : FetchFn) (code : String) :
    (runTaskBody fetch code).events = [] ∨
      (runTaskBody fetch code).events = [Event.record code, Event.advance code] := by
  cases h : get_quote_history_single code (fetch code 0)
  · left; simp [runTaskBody, h]
  · right; simp [runTaskBody, h]

/-! ### Scheduler-step lemmas -/

theorem stepTask_eq (fetch : FetchFn) {tries : Nat} (h : 1 ≤ tries)
    (st : BatchState) (code : String) :
    stepTask fetch tries st code = applyOutcome st code (runTaskBody fetch code) := by
  cases tries with
  | zero => exact absurd h (by omega)
  | succ t => rfl

theorem stepTask_zero (fetch : FetchFn) (st : BatchState) (code : String) :
    stepTask fetch 0 st code = st := rfl

/-! ### Batch-fold lemmas -/

theorem applyOutcome_keys_nodup (fetch : FetchFn) (st : BatchState) (a : String)
    (cs : List String) (h2 : (st.dfs.map Prod.fst ++ a :: cs).Nodup) :
    ((applyOutcome st a (runTaskBody fetch a)).dfs.map Prod.fst ++ cs).Nodup := by
  cases hr : (runTaskBody fetch a).result with
  | none =>
    have hdfs : (applyOutcome st a (runTaskBody fetch a)).dfs = st.dfs := by
      simp [applyOutcome, recordResult, hr]
    rw [hdfs]
    rw [List.nodup_append] at h2 ⊢
    exact ⟨h2.1, (List.nodup_cons.mp h2.2.1).2,
      fun x hx hcs => h2.2.2 hx (List.mem_cons_of_mem a hcs)⟩
  | some df =>
    have hka : a ∉ st.dfs.map Prod.fst := by
      rw [List.nodup_append] at h2
      exact fun hmem => h2.2.2 hmem (List.mem_cons_self a cs)
    have hdfs : (applyOutcome st a (runTaskBody fetch a)).dfs = st.dfs ++ [(a, df)] := by
      simp [applyOutcome, recordResult, hr, dictInsert_fresh st.dfs a df hka]
    rw [hdfs, List.map_append, List.append_assoc]
    simpa using h2

theorem foldl_dfs_keys (fetch : FetchFn) {tries : Nat} (ht : 1 ≤ tries) :
    ∀ (codes : List String) (st : BatchState),
      (st.dfs.map Prod.fst ++ codes).Nodup →
      ((codes.foldl (stepTask fetch tries) st).dfs.map Prod.fst)
        = st.dfs.map Prod.fst
            ++ codes.filter (fun c => ((runTaskBody fetch c).result).isSome) := by
  intro codes
  induction codes with
  | nil => intro st h2; simp
  | cons a cs ih =>
    intro st h2
    rw [List.foldl_cons, stepTask_eq fetch ht]
    rw [ih _ (applyOutcome_keys_nodup fetch st a cs h2)]
    cases hr : (runTaskBody fetch a).result with
    | none =>
      have hdfs : (applyOutcome st a (runTaskBody fetch a)).dfs = st.dfs := by
        simp [applyOutcome, recordResult, hr]
      rw [hdfs]
      simp [List.filter_cons, hr]
    | some df =>
      have hka : a ∉ st.dfs.map Prod.fst := by
        rw [List.nodup_append] at h2
        exact fun hmem => h2.2.2 hmem (List.mem_cons_self a cs)
      have hdfs : (applyOutcome st a (runTaskBody fetch a)).dfs = st.dfs ++ [(a, df)] := by
        simp [applyOutcome, recordResult, hr, dictInsert_fresh st.dfs a df hka]
      rw [hdfs]
      simp [List.filter_cons, hr, List.append_assoc]

theorem foldl_lookup_preserve (fetch : FetchFn) (tries : Nat) :
    ∀ (codes : List String) (st : BatchState) (c : String), c ∉ codes →
      dictLookup (codes.foldl (stepTask fetch tries) st).dfs c = dictLookup st.dfs c := by
  intro codes
  induction codes with
  | nil => intro st c _; rfl
  | cons a cs ih =>
    intro st c h
    rw [List.mem_cons, not_or] at h
    rw [List.foldl_cons, ih _ c h.2]
    cases tries with
    | zero => rw [stepTask_zero]
    | succ t =>
      rw [stepTask_eq fetch (Nat.succ_le_succ (Nat.zero_le t))]
      cases hr : (runTaskBody fetch a).result with
      | none => simp [applyOutcome, recordResult, hr]
      | some df =>
        simp [applyOutcome, recordResult, hr,
          dictLookup_insert_ne st.dfs a c df h.1]

theorem foldl_lookup (fetch : FetchFn) {tries : Nat} (ht : 1 ≤ tries) :
    ∀ (codes : List String) (st : BatchState),
      (st.dfs.map Prod.fst ++ codes).Nodup → ∀ c ∈ codes,
      dictLookup (codes.foldl (stepTask fetch tries) st).dfs c
        = (runTaskBody fetch c).result := by
  intro codes
  induction codes with
  | nil => intro st _ c hc; exact absurd hc (List.not_mem_nil c)
  | cons a cs ih =>
    intro st h2 c hc
    rw [List.foldl_cons]
    rcases List.mem_cons.mp hc with rfl | hcs
    · have hacs : c ∉ cs := by
        rw [List.nodup_append] at h2
        exact (List.nodup_cons.mp h2.2.1).1
      rw [foldl_lookup_preserve fetch tries cs _ c hacs, stepTask_eq fetch ht]
      cases hr : (runTaskBody fetch c).result with
      | none =>
        have hk : c ∉ st.dfs.map Prod.fst := by
          rw [List.nodup_append] at h2
          exact fun hmem => h2.2.2 hmem (List.mem_cons_self c cs)
        simp [applyOutcome, recordResult, hr, dictLookup_not_mem st.dfs c hk]
      | some df => simp [applyOutcome, recordResult, hr, dictLookup_insert_self]
    · rw [stepTask_eq fetch ht]
      exact ih _ (applyOutcome_keys_nodup fetch st a cs h2) c hcs

theorem foldl_fetchCalls (fetch : FetchFn) {tries : Nat} (ht : 1 ≤ tries) :
    ∀ (codes : List String) (st : BatchState),
      (codes.foldl (stepTask fetch tries) st).fetchCalls
        = st.fetchCalls + codes.length := by
  intro codes
  induction codes with
  | nil => intro st; rfl
  | cons a cs ih =>
    intro st
    rw [List.foldl_cons, stepTask_eq fetch ht, ih]
    simp [applyOutcome, runTaskBody_attempts]
    omega

/-! ### Trace-ordering lemmas -/

theorem goodTrace_nil : goodTrace [] := by
  intro i k h
  simp at h

theorem goodTrace_append_pair (es : List Event) (c : String) (h : goodTrace es) :
    goodTrace (es ++ [Event.record c, Event.advance c]) := by
  intro i k hi
  by_cases hlen : i < es.length
  · rw [List.getElem?_append_left hlen] at hi
    obtain ⟨j, hj1, hj2⟩ := h i k hi
    exact ⟨j, hj1, by rw [List.getElem?_append_left (lt_trans hj1 hlen)]; exact hj2⟩
  · have hge : es.length ≤ i := Nat.le_of_not_lt hlen
    rw [List.getElem?_append_right hge] at hi
    rcases hd : i - es.length with _ | _ | d
    · rw [hd] at hi
      simp at hi
    · rw [hd] at hi
      simp at hi
      refine ⟨es.length, by omega, ?_⟩
      rw [List.getElem?_append_right (Nat.le_refl es.length)]
      simp [hi]
    · rw [hd] at hi
      simp at hi

theorem stepTask_events (fetch : FetchFn) (tries : Nat) (st : BatchState) (c : String) :
    (stepTask fetch tries st c).events = st.events ∨
      (stepTask fetch tries st c).events
        = st.events ++ [Event.record c, Event.advance c] := by
  cases tries with
  | zero => left; rfl
  | succ t =>
    rw [stepTask_eq fetch (Nat.succ_le_succ (Nat.zero_le t))]
    rcases runTaskBody_events_cases fetch c with h | h
    · left; simp [applyOutcome, h]
    · right; simp [applyOutcome, h]

theorem foldl_goodTrace (fetch : FetchFn) (tries : Nat) :
    ∀ (codes : List String) (st : BatchState), goodTrace st.events →
      goodTrace ((codes.foldl (stepTask fetch tries) st).events) := by
  intro codes
  induction codes with
  | nil => intro st h; exact h
  | cons a cs ih =>
    intro st h
    rw [List.foldl_cons]
    apply ih
    rcases stepTask_events fetch tries st a with he | he
    · rw [he]; exact h
    · rw [he]; exact goodTrace_append_pair st.events a h

/-! ### Concrete fetch stubs used by witnesses and counterexamples -/

/-- A fetch that succeeds on every key and attempt. -/
def fetchOkStub : FetchFn := fun _ _ => FetchResult.ok ("stub") []

/-- A fetch that raises a transient error on every key and attempt. -/
def fetchRaiseStub : FetchFn := fun _ _ => FetchResult.raise ("timeout")

/-- A fetch whose data field is null for every key and attempt. -/
def fetchNoDataStub : FetchFn := fun _ _ => FetchResult.noData

/-- A fetch that raises transiently on the first attempt and succeeds on
every later attempt. -/
def fetchFlakyStub : FetchFn := fun _ n =>
  match n with
  | 0 => FetchResult.raise ("timeout")
  | _ + 1 => FetchResult.ok ("moutai") []

/-! ### Claim theorems -/

/-- Claim C1: for a batch of N distinct keys submitted to
get_quote_history_multi without cancellation, with a fetch that succeeds
for every key, the returned ResultMap contains exactly N entries, one per
input key in input order, and no key appears twice. -/
theorem multi_all_success (fetch : FetchFn) (codes : List String)
    (h1 : codes.Nodup)
    (h2 : ∀ c ∈ codes, (fetch c 0).isSuccess = true) :
    ((get_quote_history_multi fetch 3 codes).dfs.map Prod.fst = codes)
    ∧ (get_quote_history_multi fetch 3 codes).dfs.length = codes.length
    ∧ ((get_quote_history_multi fetch 3 codes).dfs.map Prod.fst).Nodup := by
  have hkeys : (get_quote_history_multi fetch 3 codes).dfs.map Prod.fst = codes := by
    rw [get_quote_history_multi,
      foldl_dfs_keys fetch (by omega) codes (initBatch codes)
        (by simpa [initBatch] using h1)]
    simp only [initBatch, List.map_nil, List.nil_append]
    exact List.filter_eq_self.mpr
      (fun c hc => runTaskBody_isSome_of_isSuccess fetch c (h2 c hc))
  refine ⟨hkeys, ?_, ?_⟩
  · have hlen := congrArg List.length hkeys
    simpa using hlen
  · rw [hkeys]; exact h1

/-- Claim C1 witness: two distinct keys with an always-succeeding fetch
give a map whose key list is exactly the input. -/
theorem multi_all_success_witness :
    ((get_quote_history_multi fetchOkStub 3 ["600519", "000001"]).dfs.map Prod.fst
        = ["600519", "000001"])
    ∧ (get_quote_history_multi fetchOkStub 3 ["600519", "000001"]).dfs.length
        = (["600519", "000001"] : List String).length
    ∧ ((get_quote_history_multi fetchOkStub 3 ["600519", "000001"]).dfs.map Prod.fst).Nodup :=
  multi_all_success fetchOkStub (["600519", "000001"]) (by decide) (by decide)

/-- Claim C2 counterexample: with the default tries = 3 and a fetch that
fails transiently on every attempt, the batch performs exactly ONE fetch
attempt for the key, not three, and no empty placeholder is recorded: the
returned dict is empty and the key is absent. -/
theorem transient_retry_cex :
    (get_quote_history_multi fetchRaiseStub 3 ["600519"]).fetchCalls = 1
    ∧ (get_quote_history_multi fetchRaiseStub 3 ["600519"]).dfs = []
    ∧ ¬ ((get_quote_history_multi fetchRaiseStub 3 ["600519"]).fetchCalls = 3)
    ∧ ¬ (dictLookup (get_quote_history_multi fetchRaiseStub 3 ["600519"]).dfs ("600519")
          = some placeholderDF) := by
  decide

/-- Claim C2 amended: for every key whose fetch raises transiently on
every attempt, exactly one fetch attempt is made for it (the retry
decorator wraps the thread spawn, which always succeeds, so it never
reattempts the fetch), the exception kills the worker before the dict
assignment so the key is absent from the ResultMap (no placeholder entry
is recorded), and the batch is not aborted: it still returns, every key
gets its single fetch attempt, and every other key keeps its own
outcome. -/
theorem transient_single_attempt (fetch : FetchFn) (codes : List String)
    (c e : String) (h1 : codes.Nodup) (hc : c ∈ codes)
    (hf : ∀ n : Nat, fetch c n = FetchResult.raise e) :
    dictLookup (get_quote_history_multi fetch 3 codes).dfs c = none
    ∧ (get_quote_history_multi fetch 3 codes).fetchCalls = codes.length
    ∧ ∀ c2 ∈ codes,
        dictLookup (get_quote_history_multi fetch 3 codes).dfs c2
          = (runTaskBody fetch c2).result := by
  have hl : ∀ c2 ∈ codes,
      dictLookup (get_quote_history_multi fetch 3 codes).dfs c2
        = (runTaskBody fetch c2).result := by
    intro c2 hc2
    rw [get_quote_history_multi]
    exact foldl_lookup fetch (by omega) codes (initBatch codes)
      (by simpa [initBatch] using h1) c2 hc2
  refine ⟨?_, ?_, hl⟩
  · rw [hl c hc, runTaskBody_raise fetch c e (hf 0)]
  · rw [get_quote_history_multi, foldl_fetchCalls fetch (by omega) codes (initBatch codes)]
    simp [initBatch]

/-- Claim C2 amended witness: two keys, the first always raising; the
first key is absent and the whole batch made one attempt per key. -/
theorem transient_single_attempt_witness :
    dictLookup (get_quote_history_multi fetchRaiseStub 3 ["600519", "000001"]).dfs
        ("600519") = none
    ∧ (get_quote_history_multi fetchRaiseStub 3 ["600519", "000001"]).fetchCalls
        = (["600519", "000001"] : List String).length :=
  ⟨(transient_single_attempt fetchRaiseStub (["600519", "000001"]) ("600519") ("timeout")
      (by decide) (by decide) (fun _ => rfl)).1,
   (transient_single_attempt fetchRaiseStub (["600519", "000001"]) ("600519") ("timeout")
      (by decide) (by decide) (fun _ => rfl)).2.1⟩

/-- Claim C3 counterexample: a fetch that fails transiently exactly once
(k = 1 < maxAttempts = 3) and would succeed on the second attempt leaves
the key ABSENT from the returned dict: the transient failure is not
masked, and the ResultEntry is not the success payload. -/
theorem retry_mask_cex :
    dictLookup (get_quote_history_multi fetchFlakyStub 3 ["600519"]).dfs ("600519") = none
    ∧ ¬ (dictLookup (get_quote_history_multi fetchFlakyStub 3 ["600519"]).dfs ("600519")
          = some (successDF ("600519") ("moutai") [])) := by
  decide

/-- Claim C3 amended: transient failures are never masked: for a fetch
that fails transiently exactly k times and then succeeds, the ResultEntry
is the success payload exactly when k = 0; for k at least 1 only the
first attempt is ever made and the key is absent from the ResultMap. -/
theorem retry_not_masking (fetch : FetchFn) (codes : List String)
    (c stock_name e : String) (klines : List String) (k : Nat)
    (h1 : codes.Nodup) (hc : c ∈ codes) (hk : k < 3)
    (hf1 : ∀ n < k, fetch c n = FetchResult.raise e)
    (hf2 : fetch c k = FetchResult.ok stock_name klines) :
    dictLookup (get_quote_history_multi fetch 3 codes).dfs c
      = if k = 0 then some (successDF c stock_name klines) else none := by
  have hl := foldl_lookup fetch (show (1 : Nat) ≤ 3 by omega) codes (initBatch codes)
    (by simpa [initBatch] using h1) c hc
  cases k with
  | zero =>
    rw [get_quote_history_multi, hl, runTaskBody_ok fetch c stock_name klines hf2]
    simp
  | succ k2 =>
    rw [get_quote_history_multi, hl,
      runTaskBody_raise fetch c e (hf1 0 (Nat.succ_pos k2))]
    simp

/-- Claim C3 amended witness: one transient failure then a success
(k = 1): the key is absent. -/
theorem retry_not_masking_witness :
    dictLookup (get_quote_history_multi fetchFlakyStub 3 ["600519"]).dfs ("600519")
      = if 1 = 0 then some (successDF ("600519") ("moutai") []) else none :=
  retry_not_masking fetchFlakyStub (["600519"]) ("600519") ("moutai") ("timeout") [] 1
    (by decide) (by decide) (by decide) (by decide) rfl

/-- Claim C4: cancellation firing after M of N tasks have completed
yields, without throwing, a ResultMap holding exactly the M completed
keys; the not-yet-completed keys are absent. -/
theorem cancellation_partial_snapshot (fetch : FetchFn) (codes : List String)
    (M : Nat) (h1 : codes.Nodup) (h2 : M < codes.length)
    (h3 : ∀ c ∈ codes, (fetch c 0).isSuccess = true) :
    ((runBatchCancelled fetch 3 codes M).dfs.map Prod.fst = codes.take M)
    ∧ (runBatchCancelled fetch 3 codes M).dfs.length = M
    ∧ ∀ c ∈ codes.drop M, dictLookup (runBatchCancelled fetch 3 codes M).dfs c = none := by
  have htake : (codes.take M).Nodup :=
    List.Nodup.sublist (List.take_sublist M codes) h1
  have hkeys : (runBatchCancelled fetch 3 codes M).dfs.map Prod.fst = codes.take M := by
    rw [runBatchCancelled, get_quote_history_multi,
      foldl_dfs_keys fetch (by omega) (codes.take M) (initBatch (codes.take M))
        (by simpa [initBatch] using htake)]
    simp only [initBatch, List.map_nil, List.nil_append]
    exact List.filter_eq_self.mpr
      (fun c hc => runTaskBody_isSome_of_isSuccess fetch c (h3 c (List.take_subset M codes hc)))
  refine ⟨hkeys, ?_, ?_⟩
  · have hlen := congrArg List.length hkeys
    simp only [List.length_map, List.length_take] at hlen
    omega
  · intro c hcdrop
    apply dictLookup_not_mem
    rw [hkeys]
    intro hctake
    have hsplit := List.take_append_drop M codes
    rw [← hsplit, List.nodup_append] at h1
    exact h1.2.2 hctake hcdrop

/-- Claim C4 witness: three keys, cancellation after two completions:
the map holds exactly the first two keys. -/
theorem cancellation_partial_snapshot_witness :
    ((runBatchCancelled fetchOkStub 3 ["600519", "000001", "600000"] 2).dfs.map Prod.fst
        = (["600519", "000001", "600000"] : List String).take 2)
    ∧ (runBatchCancelled fetchOkStub 3 ["600519", "000001", "600000"] 2).dfs.length = 2 :=
  ⟨(cancellation_partial_snapshot fetchOkStub (["600519", "000001", "600000"]) 2
      (by decide) (by decide) (by decide)).1,
   (cancellation_partial_snapshot fetchOkStub (["600519", "000001", "600000"]) 2
      (by decide) (by decide) (by decide)).2.1⟩

/-- Claim C5: for every key for which the provider reports no data
(Permanent error), the ResultEntry is the empty placeholder, produced
after exactly one fetch attempt per key with no retry. -/
theorem permanent_no_retry (fetch : FetchFn) (codes : List String) (c : String)
    (h1 : codes.Nodup) (hc : c ∈ codes)
    (hf : fetch c 0 = FetchResult.noData) :
    dictLookup (get_quote_history_multi fetch 3 codes).dfs c = some placeholderDF
    ∧ (get_quote_history_multi fetch 3 codes).fetchCalls = codes.length := by
  constructor
  · rw [get_quote_history_multi,
      foldl_lookup fetch (by omega) codes (initBatch codes)
        (by simpa [initBatch] using h1) c hc,
      runTaskBody_noData fetch c hf]
  · rw [get_quote_history_multi, foldl_fetchCalls fetch (by omega) codes (initBatch codes)]
    simp [initBatch]

/-- Claim C5 witness: a single key whose data field is null gets the
placeholder entry after one attempt. -/
theorem permanent_no_retry_witness :
    dictLookup (get_quote_history_multi fetchNoDataStub 3 ["600519"]).dfs ("600519")
      = some placeholderDF
    ∧ (get_quote_history_multi fetchNoDataStub 3 ["600519"]).fetchCalls
        = (["600519"] : List String).length :=
  permanent_no_retry fetchNoDataStub (["600519"]) ("600519") (by decide) (by decide) rfl

/-- Claim C6: the empty key set returns an empty map, performs zero
fetch calls, spawns no worker task, and never calls the collaborator
update_local_market_stocks_info. -/
theorem empty_batch (fetch : FetchFn) (tries : Nat) :
    (get_quote_history_multi fetch tries []).dfs = []
    ∧ (get_quote_history_multi fetch tries []).fetchCalls = 0
    ∧ (get_quote_history_multi fetch tries []).spawns = 0
    ∧ (get_quote_history_multi fetch tries []).marketInfoUpdates = 0 :=
  ⟨rfl, rfl, rfl, rfl⟩

/-- Claim C7 counterexample: a terminal-failure entry is recorded for its
key, but the payload itself is NOT tagged with the originating key the
way success payloads are: the placeholder has no stock-code column and no
rows, so the key appears nowhere in it. -/
theorem failure_entry_untagged_cex :
    dictLookup (get_quote_history_multi fetchNoDataStub 3 ["000858"]).dfs ("000858")
      = some placeholderDF
    ∧ ¬ carriesKey placeholderDF ("000858") := by
  constructor
  · decide
  · decide

/-- Claim C7 amended: a terminal-failure ResultEntry is the empty
placeholder stored in the ResultMap under its originating key, and a key
transitions from absent to exactly one terminal entry; but unlike a
success payload, which carries the key in its stock-code column on every
row, the placeholder does not itself carry the EntityKey. -/
theorem entry_tagging (fetch : FetchFn) (codes : List String) (c : String)
    (h1 : codes.Nodup) (hc : c ∈ codes) :
    (fetch c 0 = FetchResult.noData →
      dictLookup (get_quote_history_multi fetch 3 codes).dfs c = some placeholderDF
      ∧ ¬ carriesKey placeholderDF c)
    ∧ (∀ stock_name klines, fetch c 0 = FetchResult.ok stock_name klines →
      dictLookup (get_quote_history_multi fetch 3 codes).dfs c
        = some (successDF c stock_name klines)
      ∧ carriesKey (successDF c stock_name klines) c) := by
  have hl := foldl_lookup fetch (show (1 : Nat) ≤ 3 by omega) codes (initBatch codes)
    (by simpa [initBatch] using h1) c hc
  constructor
  · intro hf
    constructor
    · rw [get_quote_history_multi, hl, runTaskBody_noData fetch c hf]
    · intro htag
      exact absurd htag.1 (by decide)
  · intro stock_name klines hf
    refine ⟨?_, ?_, ?_⟩
    · rw [get_quote_history_multi, hl, runTaskBody_ok fetch c stock_name klines hf]
    · exact List.mem_cons_of_mem ("股票名称") (List.mem_cons_self ("股票代码") klineColumns)
    · intro r hr
      simp only [successDF] at hr
      obtain ⟨r0, _, rfl⟩ := List.mem_map.mp hr
      exact List.mem_cons_of_mem stock_name (List.mem_cons_self c r0)

/-- Claim C7 amended witness: a no-data key gets the placeholder, and the
placeholder does not carry the key. -/
theorem entry_tagging_witness :
    dictLookup (get_quote_history_multi fetchNoDataStub 3 ["000001"]).dfs ("000001")
      = some placeholderDF
    ∧ ¬ carriesKey placeholderDF ("000001") :=
  (entry_tagging fetchNoDataStub (["000001"]) ("000001") (by decide) (by decide)).1 rfl

/-- Claim C8: when the key-set argument of the batch entry point
get_quote_history is neither a string nor an iterable, a TypeError is
raised immediately, with zero fetch calls performed and zero worker
tasks spawned. -/
theorem type_error_before_fetch (fetch : FetchFn) (tries : Nat) :
    (get_quote_history fetch tries StockCodesArg.other).result
        = Except.error typeErrorMsg
    ∧ (get_quote_history fetch tries StockCodesArg.other).fetchCalls = 0
    ∧ (get_quote_history fetch tries StockCodesArg.other).spawns = 0 :=
  ⟨rfl, rfl, rfl⟩

/-- Claim C9: in every batch trace, a progress-reporter advance for a key
happens only after the dict record of that key terminal outcome: every
advance event is preceded by the matching record event. -/
theorem advance_after_record (fetch : FetchFn) (tries : Nat) (codes : List String) :
    goodTrace (get_quote_history_multi fetch tries codes).events :=
  foldl_goodTrace fetch tries codes (initBatch codes) goodTrace_nil

/-- Claim C10: on a null data payload, get_today_bill raises to the
caller (None is subscripted unconditionally), while get_history_bill and
get_quote_history_single return an empty DataFrame with their expected
columns. -/
theorem bill_null_divergence (stock_code : String) :
    get_today_bill stock_code BillResp.null = Except.error noneSubscriptMsg
    ∧ get_history_bill BillResp.null = { columns := billColumns, rows := [] }
    ∧ get_quote_history_single stock_code FetchResult.noData
        = Except.ok { columns := klineColumns, rows := [] } :=
  ⟨rfl, rfl, rfl⟩
